import Mathlib

/-!
Shallow embedding of the two batch-processing client classes
(`MistralAIBatchProcessor` in mistral_batch.py and `OpenAIBatchProcessor`
in openai_batch.py) and proofs about their file-writing, upload and
status-polling behaviour.

Modelling conventions:
* Python dict/list/str/int/None values that end up JSON-serialized are
  modelled by the inductive `JsonVal`; `dumps` models `json.dumps` with its
  default separators and control-character escaping (non-ASCII escaping is
  not modelled; no claim depends on it).
* The local filesystem is a partial map from path strings to file contents;
  opening a file in mode w and writing lines sets its content to exactly the
  written text.
* Vendor SDK calls (status fetch, file upload) are external collaborators
  and are modelled by scripted oracles passed in as arguments; a Python
  exception raised by such a call is an explicit `FetchResult.exn` /
  `Except.error` value.
* `print` calls are collected in a returned list of log strings.
-/

namespace LLMBatch

/-- JSON-serializable Python values: strings, ints, None, lists, dicts
(dicts keep insertion order, as Python dicts do). -/
inductive JsonVal where
  | str : String → JsonVal
  | num : Int → JsonVal
  | null : JsonVal
  | arr : List JsonVal → JsonVal
  | obj : List (String × JsonVal) → JsonVal

/-- Decimal digit character, for rendering numbers. -/
def digitChar (n : Nat) : Char := Char.ofNat (48 + n)

/-- Decimal rendering of a natural number: most significant digit first
(fuel-based recursion; `n + 1` iterations always suffice since the value
shrinks by a factor of ten each step). -/
def natToCharsAux : Nat → Nat → List Char
  | 0, _ => []
  | fuel + 1, n =>
    if n < 10 then [digitChar n]
    else natToCharsAux fuel (n / 10) ++ [digitChar (n % 10)]

/-- Decimal rendering of a natural number, as Python `str`/`json.dumps` do. -/
def natToChars (n : Nat) : List Char := natToCharsAux (n + 1) n

/-- Decimal rendering of an integer. -/
def intToString : Int → String
  | Int.ofNat n => String.mk (natToChars n)
  | Int.negSucc n => String.mk ('-' :: natToChars (n + 1))

/-- Hexadecimal digit character (lowercase), for control-character escapes. -/
def hexDigitChar (n : Nat) : Char :=
  if n < 10 then digitChar n else Char.ofNat (87 + n)

/-- JSON escaping of a single character, as `json.dumps` performs it:
quote, backslash and control characters are escaped (named escapes for
\n, \r, \t, \u00XX for the other control characters). -/
def escapeChar (c : Char) : List Char :=
  if c = '"' then ['\\', '"']
  else if c = '\\' then ['\\', '\\']
  else if c = '\n' then ['\\', 'n']
  else if c = '\r' then ['\\', 'r']
  else if c = '\t' then ['\\', 't']
  else if c.toNat < 32 then
    ['\\', 'u', '0', '0', hexDigitChar (c.toNat / 16), hexDigitChar (c.toNat % 16)]
  else [c]

/-- JSON escaping of a string body. -/
def escapeString (s : String) : List Char :=
  s.data.flatMap escapeChar

/-- A JSON string literal: quote, escaped body, quote. -/
def quoteString (s : String) : String :=
  String.mk ('"' :: escapeString s ++ ['"'])

/-- Join a list of strings with a separator (Python `sep.join`). -/
def joinSep (sep : String) : List String → String
  | [] => ""
  | [x] => x
  | x :: y :: ys => x ++ sep ++ joinSep sep (y :: ys)

/-- `json.dumps` with its default separators: item separator comma-space,
key separator colon-space. -/
def dumps : JsonVal → String
  | JsonVal.str s => quoteString s
  | JsonVal.num n => intToString n
  | JsonVal.null => "null"
  | JsonVal.arr xs => "[" ++ joinSep ", " (xs.attach.map (fun x => dumps x.1)) ++ "]"
  | JsonVal.obj fs => "\x7b" ++
      joinSep ", " (fs.attach.map (fun kv => quoteString kv.1.1 ++ ": " ++ dumps kv.1.2)) ++ "\x7d"
termination_by j => sizeOf j
decreasing_by
  · have := List.sizeOf_lt_of_mem x.2
    simp only [JsonVal.arr.sizeOf_spec]
    omega
  · have h1 := List.sizeOf_lt_of_mem kv.2
    have h2 : sizeOf kv.1.2 < sizeOf kv.1 := by
      obtain ⟨a, b⟩ := kv.1
      simp only [Prod.mk.sizeOf_spec]
      omega
    simp only [JsonVal.obj.sizeOf_spec]
    omega

/-- A list of serialized records, one JSON object per line: the content that
the write loops `for obj in tasks: f.write(json.dumps(obj) + '\n')` produce
in a file opened in mode w. -/
def jsonlContent : List JsonVal → String
  | [] => ""
  | t :: ts => dumps t ++ "\n" ++ jsonlContent ts

/-- Split a character list into newline-terminated lines (a trailing
fragment without a final newline also counts as a line, an empty trailing
fragment does not): the lines obtained by reading the file back. -/
def splitLinesAux (acc : List Char) : List Char → List String
  | [] => if acc.isEmpty then [] else [String.mk acc.reverse]
  | c :: cs =>
    if c = '\n' then String.mk acc.reverse :: splitLinesAux [] cs
    else splitLinesAux (c :: acc) cs

/-- The lines of a file's content. -/
def splitLines (s : String) : List String := splitLinesAux [] s.data

/-- A Python value usable as a task identifier; `pyStr` models `str(id)`. -/
inductive PyVal where
  | pstr : String → PyVal
  | pint : Int → PyVal

/-- Python `str` on an identifier value. -/
def pyStr : PyVal → String
  | PyVal.pstr s => s
  | PyVal.pint n => intToString n

/-- The local filesystem: a partial map from path to file content. -/
def FS : Type := String → Option String

/-- First-match lookup in an ordered association list (Python dict access
`d[key]` on the dicts built here). -/
def assocLookup (key : String) : List (String × JsonVal) → Option JsonVal
  | [] => none
  | (k, v) :: rest => if k = key then some v else assocLookup key rest

/-- Look up a key of a JSON object. -/
def objLookup (j : JsonVal) (key : String) : Option JsonVal :=
  match j with
  | JsonVal.obj fs => assocLookup key fs
  | _ => none

/-- Look up a key inside the "body" object of a request. -/
def bodyLookup (j : JsonVal) (key : String) : Option JsonVal :=
  match objLookup j "body" with
  | some b => objLookup b key
  | none => none

/-- A Python exception raised by I/O or a vendor SDK call, at the
granularity the except clauses distinguish. -/
inductive PyExn where
  | fileNotFound : PyExn
  | ioError : String → PyExn
  | other : String → PyExn

/-- The vendor's file handle returned by a successful upload (carries at
minimum an opaque id). -/
structure BatchFileHandle where
  id : String

/-- One attempt of the polling loop to fetch the remote job's status:
either a status string, or a raised exception. -/
inductive FetchResult where
  | ok : String → FetchResult
  | exn : FetchResult
deriving DecidableEq

/-! ## MistralAIBatchProcessor (mistral_batch.py)

Constructor-time configuration. `api_key`/`client` are the opaque vendor
SDK handle and are not part of the model; vendor calls are passed in as
scripted oracles. `max_tokens` is typed int in the source; `temperature`
is an arbitrary (JSON-serializable) value, never computed with. -/
structure MistralAIBatchProcessor where
  model_name : String
  max_tokens : Int
  temperature : JsonVal
  filenamePrefix : String
  task_dir : String
  batch_dir : String
  output_dir : String

namespace MistralAIBatchProcessor

/-- mistral_batch.py `create_task(self, id, messages)`: a single request
dict; the body embeds only the configured model and max_tokens. -/
def create_task (p : MistralAIBatchProcessor) (id : PyVal) (messages : List JsonVal) : JsonVal :=
  JsonVal.obj
    [("custom_id", JsonVal.str (pyStr id)),
     ("body", JsonVal.obj
       [("model", JsonVal.str p.model_name),
        ("max_tokens", JsonVal.num p.max_tokens),
        ("messages", JsonVal.arr messages)])]

/-- Path `Path(self.task_dir) / f"{self.filename_prefix}_tasks.jsonl"`. -/
def taskFilePath (p : MistralAIBatchProcessor) : String :=
  p.task_dir ++ "/" ++ p.filenamePrefix ++ "_tasks.jsonl"

/-- mistral_batch.py `write_task_file`: open the task file in mode w
(truncating) and write one serialized record per line. The model does not
track directory creation (`mkdir(parents=True, exist_ok=True)`). -/
def write_task_file (p : MistralAIBatchProcessor) (tasks : List JsonVal) (fs : FS) : FS :=
  fun path => if path = p.taskFilePath then some (jsonlContent tasks) else fs path

/-- Path `Path(self.batch_dir) / f"{self.filename_prefix}_batch_job{str(i)}.jsonl"`. -/
def batchFilePath (p : MistralAIBatchProcessor) (i : Int) : String :=
  p.batch_dir ++ "/" ++ p.filenamePrefix ++ "_batch_job" ++ intToString i ++ ".jsonl"

/-- mistral_batch.py `write_batch_file(self, requests, i)`: warn when the
request list is empty, then write the (possibly empty) file; returns the
updated filesystem and the printed log lines. -/
def write_batch_file (p : MistralAIBatchProcessor) (requests : List JsonVal) (i : Int)
    (fs : FS) : FS × List String :=
  ((fun path => if path = p.batchFilePath i then some (jsonlContent requests) else fs path),
   (if requests.isEmpty
      then ["Warning: No requests to write for batch " ++ intToString i ++ "."] else [])
   ++ ["File " ++ p.batchFilePath i ++ " created successfully with "
        ++ intToString requests.length ++ " requests."])

/-- mistral_batch.py `upload_batch_file(self, batch_id)`: if the batch file
does not exist, log and return None; otherwise forward the file to the
vendor upload endpoint (modelled by the `vendor_upload` oracle, which
either returns a file handle or raises); any exception is logged
distinctly and None is returned. -/
def upload_batch_file (p : MistralAIBatchProcessor) (batch_id : Int) (fs : FS)
    (vendor_upload : String → Except PyExn BatchFileHandle) :
    Option BatchFileHandle × List String :=
  let file_path := p.batch_dir ++ "/" ++ p.filenamePrefix ++ "_batch_job"
    ++ intToString batch_id ++ ".jsonl"
  match fs file_path with
  | none => (none, ["Error: File " ++ file_path ++ " does not exist. Cannot upload."])
  | some content =>
    match vendor_upload content with
    | Except.ok batch_file =>
      (some batch_file,
       ["Uploading batch file: " ++ file_path,
        "Successfully uploaded file. Batch file ID: " ++ batch_file.id])
    | Except.error PyExn.fileNotFound =>
      (none,
       ["Uploading batch file: " ++ file_path,
        "Error: File " ++ file_path ++ " was not found during upload."])
    | Except.error (PyExn.ioError m) =>
      (none,
       ["Uploading batch file: " ++ file_path,
        "File IO error while uploading " ++ file_path ++ ": " ++ m])
    | Except.error (PyExn.other m) =>
      (none,
       ["Uploading batch file: " ++ file_path,
        "Unexpected error while uploading file " ++ file_path ++ ": " ++ m])

end MistralAIBatchProcessor

/-- Local set `success_status = {'SUCCESS'}` in
`MistralAIBatchProcessor.check_batch_job_status`. -/
def mistral_success_status : List String := ["SUCCESS"]

/-- Local set `failed_statuses = {'FAILED', 'TIMEOUT_EXCEEDED', 'CANCELLED'}`. -/
def mistral_failed_statuses : List String := ["FAILED", "TIMEOUT_EXCEEDED", "CANCELLED"]

/-- Local set `processing_statuses` (the source writes one member twice;
set semantics make the duplicate irrelevant and the set is never read). -/
def mistral_processing_statuses : List String :=
  ["QUEUED", "RUNNING", "CANCELLATION_REQUESTED", "CANCELLATION_REQUESTED"]

/-- mistral_batch.py `check_batch_job_status(self, batch_job_id,
check_interval=3)`: the polling loop, run against a finite script of fetch
outcomes. Returns the list of performed sleep durations in seconds (each
`time.sleep(check_interval * 60)`) and `some status` when the loop
returned, or `none` when the script was exhausted with the loop still
polling. A terminal status (success or failed set) returns immediately;
any other status, and any exception raised by the fetch, sleeps one
interval and retries. -/
def mistralCheckBatchJobStatus (check_interval : Nat) :
    List FetchResult → List Nat × Option String
  | [] => ([], none)
  | FetchResult.ok status :: rest =>
    if status ∈ mistral_success_status then ([], some status)
    else if status ∈ mistral_failed_statuses then ([], some status)
    else
      let r := mistralCheckBatchJobStatus check_interval rest
      (check_interval * 60 :: r.1, r.2)
  | FetchResult.exn :: rest =>
    let r := mistralCheckBatchJobStatus check_interval rest
    (check_interval * 60 :: r.1, r.2)

/-! ## OpenAIBatchProcessor (openai_batch.py) -/

/-- `self.success_statuses = {'completed'}` set by `__init__`. -/
def openai_success_statuses : List String := ["completed"]

/-- `self.failed_statuses = {'failed', 'expired', 'cancelled'}` set by
`__init__`. -/
def openai_failed_statuses : List String := ["failed", "expired", "cancelled"]

/-- `self.statuses` set by `__init__`. -/
def openai_statuses : List String :=
  ["completed", "failed", "expired", "cancelled", "validating", "in_progress",
   "finalizing", "cancelling"]

/-- The attribute names `OpenAIBatchProcessor.__init__` assigns on `self`
(openai_batch.py lines 14-27), in assignment order. -/
def openaiInitAttrNames : List String :=
  ["api_key", "client", "model_name", "temperature", "max_completion_tokens",
   "filename_prefix", "task_dir", "batch_dir", "output_dir",
   "success_statuses", "failed_statuses", "statuses"]

/-- Python attribute lookup on an `OpenAIBatchProcessor` instance,
restricted to the status-set-valued attributes: `some` the set for the
three status-set attributes `__init__` assigns, `none` (an AttributeError)
for any name `__init__` does not assign. -/
def openaiStatusAttr (name : String) : Option (List String) :=
  if name = "success_statuses" then some openai_success_statuses
  else if name = "failed_statuses" then some openai_failed_statuses
  else if name = "statuses" then some openai_statuses
  else none

/-- Constructor-time configuration of `OpenAIBatchProcessor`
(`api_key`/`client` opaque as for the other provider;
`max_completion_tokens` defaults to None in the source, hence a
JSON-serializable value here; likewise `temperature`). -/
structure OpenAIBatchProcessor where
  model_name : String
  max_completion_tokens : JsonVal
  temperature : JsonVal
  filenamePrefix : String
  task_dir : String
  batch_dir : String
  output_dir : String

namespace OpenAIBatchProcessor

/-- The dict appended for one `(task_id, message)` pair by the loop body of
openai_batch.py `create_task` (lines 31-43). -/
def taskFor (p : OpenAIBatchProcessor) (task_id : PyVal) (message : JsonVal) : JsonVal :=
  JsonVal.obj
    [("custom_id", JsonVal.str (pyStr task_id)),
     ("method", JsonVal.str "POST"),
     ("url", JsonVal.str "/v1/chat/completions"),
     ("body", JsonVal.obj
       [("model", JsonVal.str p.model_name),
        ("temperature", p.temperature),
        ("max_completion_tokens", p.max_completion_tokens),
        ("response_format", JsonVal.obj [("type", JsonVal.str "json_object")]),
        ("messages", JsonVal.arr [message])])]

/-- openai_batch.py `create_task(self, ids, messages)`: one request per
`zip(ids, messages)` pair, in order. -/
def create_task (p : OpenAIBatchProcessor) (ids : List PyVal) (messages : List JsonVal) :
    List JsonVal :=
  (ids.zip messages).map (fun im => p.taskFor im.1 im.2)

/-- Path `Path(self.task_dir) / f"{self.filename_prefix}_tasks.jsonl"`. -/
def taskFilePath (p : OpenAIBatchProcessor) : String :=
  p.task_dir ++ "/" ++ p.filenamePrefix ++ "_tasks.jsonl"

/-- openai_batch.py `write_task_file`: same contract as the other
provider's. -/
def write_task_file (p : OpenAIBatchProcessor) (tasks : List JsonVal) (fs : FS) : FS :=
  fun path => if path = p.taskFilePath then some (jsonlContent tasks) else fs path

/-- Path `Path(self.batch_dir) / f"{self.filename_prefix}_batch_job{batch_id}.jsonl"`. -/
def batchFilePath (p : OpenAIBatchProcessor) (batch_id : Int) : String :=
  p.batch_dir ++ "/" ++ p.filenamePrefix ++ "_batch_job" ++ intToString batch_id ++ ".jsonl"

/-- openai_batch.py `write_batch_file(self, requests, batch_id)`. -/
def write_batch_file (p : OpenAIBatchProcessor) (requests : List JsonVal) (batch_id : Int)
    (fs : FS) : FS × List String :=
  ((fun path => if path = p.batchFilePath batch_id then some (jsonlContent requests)
      else fs path),
   (if requests.isEmpty
      then ["Warning: No requests to write for batch " ++ intToString batch_id ++ "."]
      else [])
   ++ ["File " ++ p.batchFilePath batch_id ++ " created successfully with "
        ++ intToString requests.length ++ " requests."])

/-- openai_batch.py `upload_batch_file(self, batch_id)`: same contract as
the other provider's (`file_path.exists()` test, then
`client.files.create` inside try/except). -/
def upload_batch_file (p : OpenAIBatchProcessor) (batch_id : Int) (fs : FS)
    (vendor_upload : String → Except PyExn BatchFileHandle) :
    Option BatchFileHandle × List String :=
  let file_path := p.batchFilePath batch_id
  match fs file_path with
  | none => (none, ["Error: File " ++ file_path ++ " does not exist. Cannot upload."])
  | some content =>
    match vendor_upload content with
    | Except.ok batch_file =>
      (some batch_file,
       ["Uploading batch file: " ++ file_path,
        "Successfully uploaded file. Batch file ID: " ++ batch_file.id])
    | Except.error PyExn.fileNotFound =>
      (none,
       ["Uploading batch file: " ++ file_path,
        "Error: File " ++ file_path ++ " was not found during upload."])
    | Except.error (PyExn.ioError m) =>
      (none,
       ["Uploading batch file: " ++ file_path,
        "File IO error while uploading " ++ file_path ++ ": " ++ m])
    | Except.error (PyExn.other m) =>
      (none,
       ["Uploading batch file: " ++ file_path,
        "Unexpected error while uploading file " ++ file_path ++ ": " ++ m])

end OpenAIBatchProcessor

/-- openai_batch.py `check_batch_job_status(self, batch_job_id,
check_interval=3)`: the polling loop, against a finite script of fetch
outcomes, as for the other provider. The success test
`status in self.success_status` performs a Python attribute lookup of the
name success_status (modelled by `openaiStatusAttr`); when that lookup
fails it raises AttributeError inside the try block, so control reaches
the except clause: sleep one interval and retry. -/
def openaiCheckBatchJobStatus (check_interval : Nat) :
    List FetchResult → List Nat × Option String
  | [] => ([], none)
  | FetchResult.ok status :: rest =>
    (match openaiStatusAttr "success_status" with
     | none =>
       let r := openaiCheckBatchJobStatus check_interval rest
       (check_interval * 60 :: r.1, r.2)
     | some success_set =>
       if status ∈ success_set then ([], some status)
       else
         match openaiStatusAttr "failed_statuses" with
         | none =>
           let r := openaiCheckBatchJobStatus check_interval rest
           (check_interval * 60 :: r.1, r.2)
         | some failed_set =>
           if status ∈ failed_set then ([], some status)
           else
             let r := openaiCheckBatchJobStatus check_interval rest
             (check_interval * 60 :: r.1, r.2))
  | FetchResult.exn :: rest =>
    let r := openaiCheckBatchJobStatus check_interval rest
    (check_interval * 60 :: r.1, r.2)

/-! ## Concrete instances used to exercise the operations -/

/-- A processor configured as in the constructor's defaults (model name and
token budget chosen by the caller). -/
def mistralExample : MistralAIBatchProcessor :=
  { model_name := "mistral-large-latest"
    max_tokens := 4096
    temperature := JsonVal.num 1
    filenamePrefix := "mistral"
    task_dir := "mistral_batch_tasks"
    batch_dir := "mistral_batch_jobs"
    output_dir := "mistral_batch_outputs" }

/-- A processor configured as in the constructor's defaults. -/
def openaiExample : OpenAIBatchProcessor :=
  { model_name := "gpt-4o"
    max_completion_tokens := JsonVal.null
    temperature := JsonVal.num 1
    filenamePrefix := "openai"
    task_dir := "batch_tasks"
    batch_dir := "batch_jobs"
    output_dir := "batch_outputs" }

/-- An empty filesystem. -/
def emptyFS : FS := fun _ => none

/-- A filesystem holding exactly batch file 0 of `mistralExample`. -/
def fsWithMistralBatch0 : FS :=
  fun path => if path = mistralExample.batchFilePath 0 then some "x" else none

/-- A filesystem holding exactly batch file 0 of `openaiExample`. -/
def fsWithOpenaiBatch0 : FS :=
  fun path => if path = openaiExample.batchFilePath 0 then some "x" else none

/-- An upload oracle that succeeds with a fixed handle. -/
def vendorUploadOk : String → Except PyExn BatchFileHandle :=
  fun _ => Except.ok ⟨"file-abc123"⟩

/-- An upload oracle that raises a vendor-side error. -/
def vendorUploadErr : String → Except PyExn BatchFileHandle :=
  fun _ => Except.error (PyExn.other "connection reset")

/-! ## Serialization lemmas -/

theorem digitChar_ne_newline (n : Nat) (h : n < 10) : digitChar n ≠ '\n' := by
  interval_cases n <;> decide

theorem natToCharsAux_ne_newline (fuel : Nat) :
    ∀ (n : Nat), ∀ c ∈ natToCharsAux fuel n, c ≠ '\n' := by
  induction fuel with
  | zero =>
    intro n c hc
    simp [natToCharsAux] at hc
  | succ fuel ih =>
    intro n c hc
    rw [natToCharsAux] at hc
    by_cases h : n < 10
    · rw [if_pos h] at hc
      simp only [List.mem_singleton] at hc
      subst hc
      exact digitChar_ne_newline n h
    · rw [if_neg h] at hc
      rcases List.mem_append.1 hc with h1 | h2
      · exact ih (n / 10) c h1
      · simp only [List.mem_singleton] at h2
        subst h2
        exact digitChar_ne_newline _ (Nat.mod_lt _ (by omega))

theorem natToChars_ne_newline (n : Nat) : ∀ c ∈ natToChars n, c ≠ '\n' :=
  natToCharsAux_ne_newline (n + 1) n

theorem intToString_ne_newline (n : Int) : '\n' ∉ (intToString n).data := by
  cases n with
  | ofNat m =>
    intro hmem
    exact natToChars_ne_newline m '\n' hmem rfl
  | negSucc m =>
    intro hmem
    have hdata : (intToString (Int.negSucc m)).data = '-' :: natToChars (m + 1) := rfl
    rw [hdata, List.mem_cons] at hmem
    rcases hmem with h | h
    · exact absurd h (by decide)
    · exact natToChars_ne_newline (m + 1) '\n' h rfl

theorem hexDigitChar_ne_newline (n : Nat) (h : n < 16) : hexDigitChar n ≠ '\n' := by
  interval_cases n <;> decide

theorem escapeChar_ne_newline (c : Char) : ∀ d ∈ escapeChar c, d ≠ '\n' := by
  unfold escapeChar
  split
  · decide
  split
  · decide
  split
  · decide
  split
  · decide
  split
  · decide
  split
  · rename_i hlt
    intro d hd
    simp only [List.mem_cons, List.not_mem_nil, or_false] at hd
    rcases hd with h | h | h | h | h | h
    · subst h; decide
    · subst h; decide
    · subst h; decide
    · subst h; decide
    · subst h; exact hexDigitChar_ne_newline _ (by omega)
    · subst h; exact hexDigitChar_ne_newline _ (Nat.mod_lt _ (by omega))
  · rename_i hq hb hn hr ht hlt
    intro d hd
    simp only [List.mem_singleton] at hd
    subst hd
    exact hn

theorem quoteString_ne_newline (s : String) : '\n' ∉ (quoteString s).data := by
  intro hmem
  have hdata : (quoteString s).data = '"' :: (escapeString s ++ ['"']) := rfl
  rw [hdata, List.mem_cons] at hmem
  rcases hmem with h | h
  · exact absurd h (by decide)
  · rcases List.mem_append.1 h with h1 | h2
    · simp only [escapeString, List.mem_flatMap] at h1
      obtain ⟨c, _, hc⟩ := h1
      exact escapeChar_ne_newline c '\n' hc rfl
    · exact absurd h2 (by decide)

theorem joinSep_comma_ne_newline (l : List String)
    (h : ∀ s ∈ l, '\n' ∉ s.data) : '\n' ∉ (joinSep ", " l).data := by
  induction l with
  | nil => intro hc; cases hc
  | cons x xs ih =>
    cases xs with
    | nil =>
      simpa only [joinSep] using h x (List.mem_cons_self x [])
    | cons y ys =>
      rw [joinSep]
      intro hc
      rw [String.data_append, String.data_append] at hc
      rcases List.mem_append.1 hc with h1 | h2
      · rcases List.mem_append.1 h1 with h3 | h4
        · exact h x (List.mem_cons_self x _) h3
        · exact absurd h4 (by decide)
      · exact ih (fun s hs => h s (List.mem_cons_of_mem x hs)) h2

/-- `json.dumps` never emits a raw newline character: every newline inside a
value is escaped, so each record occupies exactly one line of the file. -/
theorem dumps_ne_newline (j : JsonVal) : '\n' ∉ (dumps j).data := by
  induction j using dumps.induct with
  | case1 s => rw [dumps]; exact quoteString_ne_newline s
  | case2 n => rw [dumps]; exact intToString_ne_newline n
  | case3 => rw [dumps]; decide
  | case4 xs ih =>
    rw [dumps]
    intro hc
    rw [String.data_append, String.data_append] at hc
    rcases List.mem_append.1 hc with h1 | h2
    · rcases List.mem_append.1 h1 with h3 | h4
      · exact absurd h3 (by decide)
      · refine joinSep_comma_ne_newline _ ?_ h4
        intro s hs
        rcases List.mem_map.1 hs with ⟨x, _, hx⟩
        subst hx
        exact ih x
    · exact absurd h2 (by decide)
  | case5 fs ih =>
    rw [dumps]
    intro hc
    rw [String.data_append, String.data_append] at hc
    rcases List.mem_append.1 hc with h1 | h2
    · rcases List.mem_append.1 h1 with h3 | h4
      · exact absurd h3 (by decide)
      · refine joinSep_comma_ne_newline _ ?_ h4
        intro s hs
        rcases List.mem_map.1 hs with ⟨kv, _, hkv⟩
        subst hkv
        intro hmem
        rw [String.data_append] at hmem
        rcases List.mem_append.1 hmem with ha | hb
        · rw [String.data_append] at ha
          rcases List.mem_append.1 ha with ha1 | ha2
          · exact quoteString_ne_newline _ ha1
          · exact absurd ha2 (by decide)
        · exact ih kv hb
    · exact absurd h2 (by decide)

/-- Splitting a newline-free prefix followed by a newline peels off exactly
one line. -/
theorem splitLinesAux_append (cs : List Char) (hcs : '\n' ∉ cs) :
    ∀ (acc rest : List Char),
      splitLinesAux acc (cs ++ '\n' :: rest) =
        String.mk (acc.reverse ++ cs) :: splitLinesAux [] rest := by
  induction cs with
  | nil =>
    intro acc rest
    simp [splitLinesAux]
  | cons c cs ih =>
    intro acc rest
    have hc : c ≠ '\n' := fun h => hcs (h ▸ List.mem_cons_self c cs)
    rw [List.cons_append, splitLinesAux, if_neg hc,
      ih (fun h => hcs (List.mem_cons_of_mem c h)) (c :: acc) rest]
    simp

/-- Reading back a jsonl file yields the serializations of the written
records, one per line, in order. -/
theorem splitLines_jsonlContent (tasks : List JsonVal) :
    splitLines (jsonlContent tasks) = tasks.map dumps := by
  induction tasks with
  | nil => rfl
  | cons t ts ih =>
    rw [jsonlContent, List.map_cons, ← ih]
    show splitLinesAux [] (dumps t ++ "\n" ++ jsonlContent ts).data = _
    rw [String.data_append, String.data_append, List.append_assoc]
    have hcons : ∀ B : List Char, "\n".data ++ B = '\n' :: B := fun _ => rfl
    rw [hcons]
    rw [splitLinesAux_append (dumps t).data (dumps_ne_newline t) [] (jsonlContent ts).data]
    rfl

/-! ## Claim theorems -/

/-- C1: the claim says a first terminal status makes `check_batch_job_status`
return that status with no sleep. The Mistral variant does exactly that (shown
here for a success-terminal and a failure-terminal first status), but the
OpenAI variant does not: its success-membership test reads the missing
attribute success_status, the resulting AttributeError lands in the except
clause, and the loop sleeps and re-fetches instead of returning — so after a
first fetch of the terminal status completed it has slept once (180 seconds)
and is still polling. -/
theorem check_status_terminal_first_divergence :
    mistralCheckBatchJobStatus 3 [FetchResult.ok "SUCCESS"] = ([], some "SUCCESS")
    ∧ mistralCheckBatchJobStatus 3 [FetchResult.ok "FAILED"] = ([], some "FAILED")
    ∧ openaiCheckBatchJobStatus 3 [FetchResult.ok "completed"] = ([180], none) := by
  refine ⟨?_, ?_, ?_⟩ <;> decide

/-- C2: the OpenAI polling loop's success test reads attribute
success_status, a name `__init__` never assigns (it assigns the similarly
named success_statuses), so the attribute lookup fails; consequently every
iteration that does fetch a status raises AttributeError at the membership
test and is treated like a fetch failure: one sleep, then retry. -/
theorem openai_success_status_attr_missing :
    "success_status" ∉ openaiInitAttrNames
    ∧ "success_statuses" ∈ openaiInitAttrNames
    ∧ openaiStatusAttr "success_status" = none
    ∧ ∀ (check_interval : Nat) (status : String) (rest : List FetchResult),
        openaiCheckBatchJobStatus check_interval (FetchResult.ok status :: rest) =
          (check_interval * 60 :: (openaiCheckBatchJobStatus check_interval rest).1,
           (openaiCheckBatchJobStatus check_interval rest).2) := by
  refine ⟨by decide, by decide, rfl, ?_⟩
  intro check_interval status rest
  rfl

/-- C3: the claim says the scripted sequence (non-terminal, non-terminal,
terminal) yields exactly two sleeps and then the terminal status. The Mistral
variant conforms; the OpenAI variant, on its own provider's statuses
(validating, in_progress, completed), sleeps three times and is still
polling, because every iteration's success test raises AttributeError (see
the C2 theorem). -/
theorem check_status_two_sleeps_divergence :
    mistralCheckBatchJobStatus 3
        [FetchResult.ok "QUEUED", FetchResult.ok "RUNNING", FetchResult.ok "SUCCESS"]
      = ([180, 180], some "SUCCESS")
    ∧ openaiCheckBatchJobStatus 3
        [FetchResult.ok "validating", FetchResult.ok "in_progress", FetchResult.ok "completed"]
      = ([180, 180, 180], none) := by
  refine ⟨?_, ?_⟩ <;> decide

/-- C4: in both variants every exception during the status fetch is treated
as a non-terminal outcome — sleep `check_interval * 60` seconds, then retry —
with no retry bound: a script of nothing but exceptions, of any length,
produces one full-interval sleep per attempt and never returns. -/
theorem check_status_retries_forever_on_exn (check_interval : Nat)
    (script : List FetchResult) (h : ∀ r ∈ script, r = FetchResult.exn) :
    mistralCheckBatchJobStatus check_interval script
        = (script.map (fun _ => check_interval * 60), none)
    ∧ openaiCheckBatchJobStatus check_interval script
        = (script.map (fun _ => check_interval * 60), none) := by
  induction script with
  | nil => exact ⟨rfl, rfl⟩
  | cons r rest ih =>
    have hr : r = FetchResult.exn := h r (List.mem_cons_self r rest)
    subst hr
    have ih2 := ih (fun x hx => h x (List.mem_cons_of_mem _ hx))
    constructor
    · show (check_interval * 60 :: (mistralCheckBatchJobStatus check_interval rest).1,
            (mistralCheckBatchJobStatus check_interval rest).2) = _
      rw [ih2.1]
      rfl
    · show (check_interval * 60 :: (openaiCheckBatchJobStatus check_interval rest).1,
            (openaiCheckBatchJobStatus check_interval rest).2) = _
      rw [ih2.2]
      rfl

/-- C4 witness: a two-exception script at the default interval yields two
180-second sleeps and no return in both variants. -/
theorem check_status_retries_forever_on_exn_witness :
    (∀ r ∈ [FetchResult.exn, FetchResult.exn], r = FetchResult.exn)
    ∧ mistralCheckBatchJobStatus 3 [FetchResult.exn, FetchResult.exn] = ([180, 180], none)
    ∧ openaiCheckBatchJobStatus 3 [FetchResult.exn, FetchResult.exn] = ([180, 180], none) := by
  have h : ∀ r ∈ [FetchResult.exn, FetchResult.exn], r = FetchResult.exn := by decide
  have hthm := check_status_retries_forever_on_exn 3 [FetchResult.exn, FetchResult.exn] h
  exact ⟨h, hthm.1, hthm.2⟩

/-- C5: for every non-empty task list, `write_task_file` (either variant)
leaves the task file holding one line per task — reading the lines back
yields exactly the serializations of the tasks, in input order, so the line
count equals the task count. -/
theorem write_task_file_lines (tasks : List JsonVal) (_hne : tasks ≠ [])
    (p : MistralAIBatchProcessor) (q : OpenAIBatchProcessor) (fs fs2 : FS) :
    (p.write_task_file tasks fs) p.taskFilePath = some (jsonlContent tasks)
    ∧ (q.write_task_file tasks fs2) q.taskFilePath = some (jsonlContent tasks)
    ∧ splitLines (jsonlContent tasks) = tasks.map dumps
    ∧ (splitLines (jsonlContent tasks)).length = tasks.length := by
  refine ⟨?_, ?_, splitLines_jsonlContent tasks, ?_⟩
  · simp [MistralAIBatchProcessor.write_task_file]
  · simp [OpenAIBatchProcessor.write_task_file]
  · rw [splitLines_jsonlContent]
    exact List.length_map tasks dumps

/-- C5 witness: one null record, written over an empty filesystem by the two
example processors. -/
theorem write_task_file_lines_witness :
    ([JsonVal.null] ≠ ([] : List JsonVal))
    ∧ ((mistralExample.write_task_file [JsonVal.null] emptyFS) mistralExample.taskFilePath
          = some (jsonlContent [JsonVal.null])
       ∧ (openaiExample.write_task_file [JsonVal.null] emptyFS) openaiExample.taskFilePath
          = some (jsonlContent [JsonVal.null])
       ∧ splitLines (jsonlContent [JsonVal.null]) = [JsonVal.null].map dumps
       ∧ (splitLines (jsonlContent [JsonVal.null])).length = [JsonVal.null].length) :=
  ⟨by simp,
   write_task_file_lines [JsonVal.null] (by simp) mistralExample openaiExample emptyFS emptyFS⟩

/-- C6: `write_task_file` fully overwrites: the task file's new content is
the serialization of the given tasks whatever the prior filesystem held, and
writing the same tasks twice leaves the filesystem exactly as one write does
(both variants). -/
theorem write_task_file_overwrites (tasks : List JsonVal)
    (p : MistralAIBatchProcessor) (q : OpenAIBatchProcessor) (fs fs2 : FS) :
    (p.write_task_file tasks fs) p.taskFilePath = some (jsonlContent tasks)
    ∧ (p.write_task_file tasks fs) p.taskFilePath = (p.write_task_file tasks fs2) p.taskFilePath
    ∧ (∀ path, (p.write_task_file tasks (p.write_task_file tasks fs)) path
          = (p.write_task_file tasks fs) path)
    ∧ (q.write_task_file tasks fs) q.taskFilePath = some (jsonlContent tasks)
    ∧ (q.write_task_file tasks fs) q.taskFilePath = (q.write_task_file tasks fs2) q.taskFilePath
    ∧ (∀ path, (q.write_task_file tasks (q.write_task_file tasks fs)) path
          = (q.write_task_file tasks fs) path) := by
  refine ⟨?_, ?_, ?_, ?_, ?_, ?_⟩
  · simp [MistralAIBatchProcessor.write_task_file]
  · simp [MistralAIBatchProcessor.write_task_file]
  · intro path
    by_cases hp : path = p.taskFilePath <;>
      simp [MistralAIBatchProcessor.write_task_file, hp]
  · simp [OpenAIBatchProcessor.write_task_file]
  · simp [OpenAIBatchProcessor.write_task_file]
  · intro path
    by_cases hp : path = q.taskFilePath <;>
      simp [OpenAIBatchProcessor.write_task_file, hp]

/-- C7: `write_batch_file` with an empty request list still creates the batch
file — its content is the empty string, which has zero lines — and the
printed log contains the warning about the empty batch (both variants). -/
theorem write_batch_file_empty_requests (i : Int)
    (p : MistralAIBatchProcessor) (q : OpenAIBatchProcessor) (fs fs2 : FS) :
    (p.write_batch_file [] i fs).1 (p.batchFilePath i) = some ""
    ∧ ("Warning: No requests to write for batch " ++ intToString i ++ ".")
        ∈ (p.write_batch_file [] i fs).2
    ∧ (q.write_batch_file [] i fs2).1 (q.batchFilePath i) = some ""
    ∧ ("Warning: No requests to write for batch " ++ intToString i ++ ".")
        ∈ (q.write_batch_file [] i fs2).2
    ∧ splitLines "" = [] := by
  refine ⟨?_, ?_, ?_, ?_, rfl⟩
  · simp [MistralAIBatchProcessor.write_batch_file, jsonlContent]
  · simp [MistralAIBatchProcessor.write_batch_file]
  · simp [OpenAIBatchProcessor.write_batch_file, jsonlContent]
  · simp [OpenAIBatchProcessor.write_batch_file]

/-- C8: `upload_batch_file` (both variants) returns None when the batch file
is absent from the filesystem, returns None when the vendor upload raises
any exception, and returns the vendor's file handle exactly on a successful
upload; no exception propagates (the model's function is total). -/
theorem upload_batch_file_result (batch_id : Int)
    (p : MistralAIBatchProcessor) (q : OpenAIBatchProcessor) (fs : FS)
    (vendor : String → Except PyExn BatchFileHandle) :
    (fs (p.batchFilePath batch_id) = none →
      (p.upload_batch_file batch_id fs vendor).1 = none)
    ∧ (∀ content e, fs (p.batchFilePath batch_id) = some content →
        vendor content = Except.error e →
        (p.upload_batch_file batch_id fs vendor).1 = none)
    ∧ (∀ content handle, fs (p.batchFilePath batch_id) = some content →
        vendor content = Except.ok handle →
        (p.upload_batch_file batch_id fs vendor).1 = some handle)
    ∧ (fs (q.batchFilePath batch_id) = none →
      (q.upload_batch_file batch_id fs vendor).1 = none)
    ∧ (∀ content e, fs (q.batchFilePath batch_id) = some content →
        vendor content = Except.error e →
        (q.upload_batch_file batch_id fs vendor).1 = none)
    ∧ (∀ content handle, fs (q.batchFilePath batch_id) = some content →
        vendor content = Except.ok handle →
        (q.upload_batch_file batch_id fs vendor).1 = some handle) := by
  refine ⟨?_, ?_, ?_, ?_, ?_, ?_⟩
  · intro h
    simp only [MistralAIBatchProcessor.batchFilePath] at h
    simp [MistralAIBatchProcessor.upload_batch_file, h]
  · intro content e hc he
    simp only [MistralAIBatchProcessor.batchFilePath] at hc
    cases e <;> simp [MistralAIBatchProcessor.upload_batch_file, hc, he]
  · intro content handle hc he
    simp only [MistralAIBatchProcessor.batchFilePath] at hc
    simp [MistralAIBatchProcessor.upload_batch_file, hc, he]
  · intro h
    simp [OpenAIBatchProcessor.upload_batch_file, h]
  · intro content e hc he
    cases e <;> simp [OpenAIBatchProcessor.upload_batch_file, hc, he]
  · intro content handle hc he
    simp [OpenAIBatchProcessor.upload_batch_file, hc, he]

/-- C8 witness: over the example filesystems, a missing batch file yields
None, a raising vendor yields None, and a successful vendor yields the
handle. -/
theorem upload_batch_file_result_witness :
    (mistralExample.upload_batch_file 1 emptyFS vendorUploadOk).1 = none
    ∧ (mistralExample.upload_batch_file 0 fsWithMistralBatch0 vendorUploadErr).1 = none
    ∧ (mistralExample.upload_batch_file 0 fsWithMistralBatch0 vendorUploadOk).1
        = some ⟨"file-abc123"⟩
    ∧ (openaiExample.upload_batch_file 1 emptyFS vendorUploadOk).1 = none
    ∧ (openaiExample.upload_batch_file 0 fsWithOpenaiBatch0 vendorUploadErr).1 = none
    ∧ (openaiExample.upload_batch_file 0 fsWithOpenaiBatch0 vendorUploadOk).1
        = some ⟨"file-abc123"⟩ := by
  refine ⟨?_, ?_, ?_, ?_, ?_, ?_⟩
  · exact (upload_batch_file_result 1 mistralExample openaiExample emptyFS
      vendorUploadOk).1 rfl
  · exact (upload_batch_file_result 0 mistralExample openaiExample fsWithMistralBatch0
      vendorUploadErr).2.1 "x" (PyExn.other "connection reset") rfl rfl
  · exact (upload_batch_file_result 0 mistralExample openaiExample fsWithMistralBatch0
      vendorUploadOk).2.2.1 "x" ⟨"file-abc123"⟩ rfl rfl
  · exact (upload_batch_file_result 1 mistralExample openaiExample emptyFS
      vendorUploadOk).2.2.2.1 rfl
  · exact (upload_batch_file_result 0 mistralExample openaiExample fsWithOpenaiBatch0
      vendorUploadErr).2.2.2.2.1 "x" (PyExn.other "connection reset") rfl rfl
  · exact (upload_batch_file_result 0 mistralExample openaiExample fsWithOpenaiBatch0
      vendorUploadOk).2.2.2.2.2 "x" ⟨"file-abc123"⟩ rfl rfl

/-- C9 counterexample: a request built by the Mistral variant's `create_task`
has no temperature and no response_format entry in its body, so not every
`create_task` embeds the configured temperature and response-format settings
as the claim states. -/
theorem mistral_create_task_missing_settings :
    bodyLookup (mistralExample.create_task (PyVal.pstr "1") []) "temperature" = none
    ∧ bodyLookup (mistralExample.create_task (PyVal.pstr "1") []) "response_format" = none := by
  exact ⟨rfl, rfl⟩

/-- C9 (amended): every request produced by `create_task` carries
custom_id = str(id); the OpenAI variant's body embeds the configured model,
temperature, token limit and response-format, while the Mistral variant's
body embeds only the configured model and token limit (its body has no
temperature or response_format entry); and every request the OpenAI variant
produces is the request built from one of the zipped (id, message) pairs. -/
theorem create_task_embeds_config (pm : MistralAIBatchProcessor)
    (po : OpenAIBatchProcessor) (id task_id : PyVal)
    (messages : List JsonVal) (message : JsonVal)
    (ids : List PyVal) (msgs : List JsonVal) :
    objLookup (pm.create_task id messages) "custom_id" = some (JsonVal.str (pyStr id))
    ∧ bodyLookup (pm.create_task id messages) "model" = some (JsonVal.str pm.model_name)
    ∧ bodyLookup (pm.create_task id messages) "max_tokens" = some (JsonVal.num pm.max_tokens)
    ∧ bodyLookup (pm.create_task id messages) "temperature" = none
    ∧ bodyLookup (pm.create_task id messages) "response_format" = none
    ∧ objLookup (po.taskFor task_id message) "custom_id" = some (JsonVal.str (pyStr task_id))
    ∧ bodyLookup (po.taskFor task_id message) "model" = some (JsonVal.str po.model_name)
    ∧ bodyLookup (po.taskFor task_id message) "temperature" = some po.temperature
    ∧ bodyLookup (po.taskFor task_id message) "max_completion_tokens"
        = some po.max_completion_tokens
    ∧ bodyLookup (po.taskFor task_id message) "response_format"
        = some (JsonVal.obj [("type", JsonVal.str "json_object")])
    ∧ ∀ t ∈ po.create_task ids msgs, ∃ im ∈ ids.zip msgs, t = po.taskFor im.1 im.2 := by
  refine ⟨rfl, rfl, rfl, rfl, rfl, rfl, rfl, rfl, rfl, rfl, ?_⟩
  intro t ht
  rcases List.mem_map.1 ht with ⟨im, him, him2⟩
  exact ⟨im, him, him2.symm⟩

/-- C9 witness: the amended statement at the example processors and a
concrete id/message pair. -/
theorem create_task_embeds_config_witness :
    objLookup (mistralExample.create_task (PyVal.pint 7) []) "custom_id"
        = some (JsonVal.str (pyStr (PyVal.pint 7)))
    ∧ ∀ t ∈ openaiExample.create_task [PyVal.pint 1] [JsonVal.str "m"],
        ∃ im ∈ [PyVal.pint 1].zip [JsonVal.str "m"], t = openaiExample.taskFor im.1 im.2 := by
  have hthm := create_task_embeds_config mistralExample openaiExample
    (PyVal.pint 7) (PyVal.pint 1) [] (JsonVal.str "m") [PyVal.pint 1] [JsonVal.str "m"]
  exact ⟨hthm.1, hthm.2.2.2.2.2.2.2.2.2.2⟩

/-- C10: the OpenAI variant's `create_task` returns min(len(ids),
len(messages)) requests — the longer argument's surplus is dropped — and the
i-th request has custom_id = str(ids[i]) and body.messages equal to the
one-element list holding messages[i]. -/
theorem openai_create_task_zip_truncates (po : OpenAIBatchProcessor)
    (ids : List PyVal) (messages : List JsonVal) :
    (po.create_task ids messages).length = min ids.length messages.length
    ∧ ∀ (i : Nat) (hi : i < ids.length) (hm : i < messages.length),
        (po.create_task ids messages)[i]? = some (po.taskFor ids[i] messages[i])
        ∧ objLookup (po.taskFor ids[i] messages[i]) "custom_id"
            = some (JsonVal.str (pyStr ids[i]))
        ∧ bodyLookup (po.taskFor ids[i] messages[i]) "messages"
            = some (JsonVal.arr [messages[i]]) := by
  constructor
  · simp [OpenAIBatchProcessor.create_task, List.length_zip]
  · intro i hi hm
    have hz : (ids.zip messages)[i]? = some (ids[i], messages[i]) := by
      rw [List.getElem?_zip_eq_some]
      exact ⟨List.getElem?_eq_getElem hi, List.getElem?_eq_getElem hm⟩
    refine ⟨?_, rfl, rfl⟩
    simp [OpenAIBatchProcessor.create_task, List.getElem?_map, hz]

/-- C10 witness: three ids against two messages yield two requests, and the
request at index 1 is built from the second id and the second message. -/
theorem openai_create_task_zip_truncates_witness :
    (openaiExample.create_task [PyVal.pint 1, PyVal.pint 2, PyVal.pint 3]
        [JsonVal.str "a", JsonVal.str "b"]).length = min 3 2
    ∧ (1 < 3) ∧ (1 < 2)
    ∧ (openaiExample.create_task [PyVal.pint 1, PyVal.pint 2, PyVal.pint 3]
        [JsonVal.str "a", JsonVal.str "b"])[1]?
        = some (openaiExample.taskFor (PyVal.pint 2) (JsonVal.str "b")) := by
  have hthm := openai_create_task_zip_truncates openaiExample
    [PyVal.pint 1, PyVal.pint 2, PyVal.pint 3] [JsonVal.str "a", JsonVal.str "b"]
  exact ⟨hthm.1, by decide, by decide, (hthm.2 1 (by decide) (by decide)).1⟩

end LLMBatch
